import Mathlib

/-
  Verification of the mlforge pipeline engine (src/mlforge/mlforge.py)
  against its natural-language specification.

  Shallow embedding.  Python runtime values that the engine inspects are
  modelled by the inductive type `Val`; Python exceptions by `PyErr`;
  fallible code returns `Except PyErr _`.  The mutable parts of a
  `Pipeline` object (the host object and the `objects_` registry) together
  with the read-only lookup environments (the module globals and the
  pipeline object's own members) form the state `PState`.

  Modelling conventions, stated once:
  * A Python `dict` keyed by strings is an association list
    `List (String × Val)`; assignment `d[k] = v` is `dictSet` (replace in
    place if the key exists, append otherwise), which matches CPython's
    insertion-order semantics.
  * Error messages mirror the Python text with interpolated values elided
    (the engine's behaviour never branches on message contents).
  * Calling a plain function/bound method is modelled by the oracle
    `PState.callRet`, applied to the function's identifier and the built
    keyword arguments; instantiating a class `c` with arguments `a` yields
    the distinguished value `Val.vinst c a`.  The observable calls made by
    the step executor are recorded in a trace of `Eff` events.
  * Attribute lookup on a model instance (`Val.vinst`) is not modelled
    (none of the verified properties depends on it); lookup on plain
    objects (`Val.vobj`) and classes (`Val.vclass`) is by member list.
-/

namespace Forge

/-- Python exceptions raised by the engine.  `nonTermination` marks the one
spot where the source (`_run_step`'s `while` loop) would loop forever. -/
inductive PyErr where
  | valueError (msg : String)
  | typeError (msg : String)
  | attributeError (msg : String)
  | assertionError (msg : String)
  | nonTermination
deriving Repr

/-- Python runtime values, as far as the engine inspects them.
`vclass name members initSig` carries the class's member dictionary and
the parameter list of its constructor; `vfun id sig` is a plain function
or bound method with its declared parameter/default list; `vinst c a` is
an instance of class `c` constructed with keyword arguments `a`;
`vobj ms` is a plain object with attribute dictionary `ms`. -/
inductive Val where
  | vnone  : Val
  | vstr   : String → Val
  | vint   : Int → Val
  | vdict  : List (String × Val) → Val
  | vclass : String → List (String × Val) → List (String × Option Val) → Val
  | vfun   : String → List (String × Option Val) → Val
  | vobj   : List (String × Val) → Val
  | vinst  : String → List (String × Val) → Val

/-- `isinstance(x, str)`. -/
def Val.isStr : Val → Bool
  | .vstr _ => true
  | _ => false

/-- `isinstance(x, dict)`. -/
def Val.isDict : Val → Bool
  | .vdict _ => true
  | _ => false

/-- `isinstance(x, type)` / `inspect.isclass(x)`. -/
def Val.isClass : Val → Bool
  | .vclass _ _ _ => true
  | _ => false

/-- `isinstance(x, typing.Hashable)`: dicts are unhashable, everything else
in the model is hashable. -/
def Val.hashable : Val → Bool
  | .vdict _ => false
  | _ => true

/-- `hasattr(x, "__module__")`: true for functions, classes and instances
of user classes; false for None, ints and dicts (strings are always
filtered out before this test in the source). -/
def Val.hasModule : Val → Bool
  | .vfun _ _ => true
  | .vclass _ _ _ => true
  | .vobj _ => true
  | .vinst _ _ => true
  | _ => false

/-- `getattr(x, name)` as a partial lookup: classes and plain objects
expose their member dictionary, other values expose no members. -/
def Val.getattr : Val → String → Option Val
  | .vobj ms, a => ms.lookup a
  | .vclass _ ms _, a => ms.lookup a
  | _, _ => none

/-- Python dict assignment `d[k] = v`: replace the binding in place when
the key is present, append it otherwise. -/
def dictSet (xs : List (String × Val)) (k : String) (v : Val) : List (String × Val) :=
  match xs with
  | [] => [(k, v)]
  | (k0, v0) :: rest => if k0 = k then (k, v) :: rest else (k0, v0) :: dictSet rest k v

/-- Helper for `splitDots`: scan the characters, cutting at every dot. -/
def splitDotsAux : List Char → List Char → List String
  | [], acc => [String.mk acc.reverse]
  | c :: rest, acc =>
    if c = '.' then String.mk acc.reverse :: splitDotsAux rest []
    else splitDotsAux rest (c :: acc)

/-- `s.split(".")` (Python never returns an empty list here): for example
it sends `"a.b.c"` to `["a", "b", "c"]` and a dot-free `s` to `[s]`. -/
def splitDots (s : String) : List String := splitDotsAux s.toList []

/-- `".".join(parts)`. -/
def joinDots (parts : List String) : String := String.intercalate "." parts

/-- The state a `Pipeline` object closes over: the host object and the
`objects_` registry (both mutated by `run`), the pipeline object's own
members (`hasattr(self, …)`), the module globals of `mlforge.py`, and the
oracle `callRet` giving the return value of calling function `id` with
the built keyword arguments. -/
structure PState where
  host : Val
  selfMembers : List (String × Val)
  globals : List (String × Val)
  objects : List (String × Val)
  callRet : String → List (String × Val) → Val

/-- `Pipeline.__init__`: the registry starts as `{'host': host}`
(mlforge.py line 92). -/
def initPipeline (host : Val) (selfMembers globals : List (String × Val))
    (callRet : String → List (String × Val) → Val) : PState :=
  { host := host, selfMembers := selfMembers, globals := globals,
    objects := [("host", host)], callRet := callRet }

/-- The authored fields of a `Stage` (mlforge.py lines 32-41).  The display
fields `_num`/`_id` and the run-time caches `_method_call`/`_parameters`
are derived data and are not part of the model. -/
structure Stage where
  attribute_name : Val
  method_name : Val
  class_name : Val
  arguments : Val

/-- The precondition asserted at the top of `_get_callable_method`:
`method_name` must be a string or None. -/
def methodNameOk : Val → Bool
  | .vnone => true
  | .vstr _ => true
  | _ => false

/-- The class-less search of `_get_callable_method` (mlforge.py lines
403-425): host members, then the pipeline object's own members, then the
module globals, then the dotted `object.member` form.  The source unpacks
`method_name.split('.')` into exactly two variables, so a name with two
or more dots raises `ValueError` (too many values to unpack); a present
host attribute without the requested member raises `AttributeError` from
`getattr`. -/
def resolveUnscoped (st : PState) (s : String) : Except PyErr (Option Val) :=
  match st.host.getattr s with
  | some v => .ok (some v)
  | none =>
    match st.selfMembers.lookup s with
    | some v => .ok (some v)
    | none =>
      match st.globals.lookup s with
      | some v => .ok (some v)
      | none =>
        match splitDots s with
        | [obj_name, member_name] =>
          match st.host.getattr obj_name with
          | some obj =>
            match obj.getattr member_name with
            | some m => .ok (some m)
            | none => .error (.attributeError "object has no such attribute")
          | none => .error (.valueError "Object not found in host object")
        | [_] => .ok none
        | _ => .error (.valueError "too many values to unpack - expected 2")

/-- `Pipeline._get_callable_method` (mlforge.py lines 360-425).
Order of the source: assert `method_name` is a string or None; if
`class_name` is a class, resolve inside the class only (member lookup for
a string name, the class itself — looked up via its defining module — for
name None); if `class_name` is given but not a class, raise
`AttributeError` ("must be a class"); otherwise search host/self/globals
and the dotted form.  With both arguments None, `hasattr(self.host, None)`
raises `TypeError`. -/
def getCallableMethod (st : PState) (methodName className : Val) :
    Except PyErr (Option Val) :=
  if methodNameOk methodName = false then
    .error (.assertionError "Method name must be a string or None")
  else
    match className with
    | .vclass c ms sig =>
      match methodName with
      | .vstr s => .ok (ms.lookup s)
      | _ => .ok (some (.vclass c ms sig))
    | .vnone =>
      match methodName with
      | .vstr s => resolveUnscoped st s
      | _ => .error (.typeError "attribute name must be a string")
    | _ => .error (.attributeError "Parameter must be a class")

/-- `Pipeline._parse_step` (mlforge.py lines 256-358) on a step tuple,
given as the list of its elements (a non-tuple step is wrapped into a
1-tuple by the source before this logic runs).  Returns the quadruple
`(attribute_name, method_name, class_name, parameters)`, each `vnone`
when unset.  The source's `if/elif` chain has no final `else`, so tuples
of length 0 or of length 5 and more fall through and return four Nones. -/
def parseStep (st : PState) (forge_step : List Val) : Except PyErr (Val × Val × Val × Val) :=
  match forge_step with
  | [e0] =>
    match e0 with
    | .vstr s => .ok (.vnone, .vstr s, .vnone, .vnone)
    | .vclass c ms sig => .ok (.vnone, .vnone, .vclass c ms sig, .vnone)
    | _ => .error (.valueError "Parameter must be a string or a class")
  | [e0, e1] =>
    if e1.isClass then
      match e0 with
      | .vstr s =>
        match getCallableMethod st (.vstr s) e1 with
        | .error e => .error e
        | .ok (some _) => .ok (.vnone, .vstr s, e1, .vnone)
        | .ok none => .ok (.vstr s, .vnone, e1, .vnone)
      | _ => .error (.valueError "First element of tuple must be a string or a method name, when the second element is a class")
    else if e1.isDict && e0.isStr then
      .ok (.vnone, e0, .vnone, e1)
    else if e0.isStr && e1.isStr then
      .ok (e0, e1, .vnone, .vnone)
    else
      .error (.valueError "Tuple with 2 elements must be either str-class, str-str or str-dict")
  | [e0, e1, e2] =>
    if e2.isDict = false then
      .error (.valueError "Third element of tuple must be a dictionary with arguments for the call to the method or class")
    else if e0.isStr && e1.isStr then
      .ok (e0, e1, .vnone, e2)
    else
      match getCallableMethod st e0 e1 with
      | .error e => .error e
      | .ok r =>
        if e1.isClass then
          match r with
          | some _ => .ok (.vnone, e0, e1, e2)
          | none => .ok (e0, .vnone, e1, e2)
        else
          .error (.valueError "Tuple with 3 elements must be either str-str-dict or str-class-dict")
  | [e0, e1, e2, e3] =>
    if e1.isStr && e2.isClass && e3.isDict then
      .ok (e0, e1, e2, e3)
    else
      .error (.valueError "Tuple with 4 elements must be str-str-class-dict")
  | _ => .ok (.vnone, .vnone, .vnone, .vnone)

/-- The body of the `_build_params` loop (mlforge.py lines 452-482) for one
declared parameter: an explicit argument first (taken verbatim when the
value is unhashable; replaced by the registered object when, as a string,
it is a key of `objects_`; verbatim otherwise), then the host attribute of
the same name, then a module global, then the declared default
(`defaultValue = none` models the `inspect.Parameter.empty` sentinel),
else `ValueError` naming the parameter.  Only a string can equal one of
the registry's string keys, so the source's `value in self.objects_` test
is a registry lookup exactly in the `vstr` case. -/
def resolveParam (st : PState) (methodArguments : Option (List (String × Val)))
    (parameter : String) (defaultValue : Option Val) : Except PyErr Val :=
  let fromOthers : Except PyErr Val :=
    match st.host.getattr parameter with
    | some v => .ok v
    | none =>
      match st.globals.lookup parameter with
      | some v => .ok v
      | none =>
        match defaultValue with
        | some d => .ok d
        | none => .error (.valueError ("Parameter " ++ parameter ++ " not found in host object or globals"))
  match methodArguments with
  | none => fromOthers
  | some args =>
    match args.lookup parameter with
    | none => fromOthers
    | some v =>
      if v.hashable = false then .ok v
      else
        match v with
        | .vstr s =>
          match st.objects.lookup s with
          | some o => .ok o
          | none => .ok (.vstr s)
        | _ => .ok v

/-- `Pipeline._build_params` (mlforge.py lines 427-484): fill the declared
parameters in declaration order, via `resolveParam`. -/
def buildParams (st : PState) (methodParameters : List (String × Option Val))
    (methodArguments : Option (List (String × Val))) : Except PyErr (List (String × Val)) :=
  match methodParameters with
  | [] => .ok []
  | (parameter, defaultValue) :: rest =>
    match resolveParam st methodArguments parameter defaultValue with
    | .error e => .error e
    | .ok v =>
      match buildParams st rest methodArguments with
      | .error e => .error e
      | .ok ps => .ok ((parameter, v) :: ps)

/-- `Pipeline._get_method_signature` (mlforge.py lines 239-254):
`inspect.signature(x).parameters` as a name/default list for functions
and classes (for a class, the constructor's signature); `TypeError` for
anything that is not callable (including None, the case of a resolver
miss). -/
def signatureOfVal : Val → Except PyErr (List (String × Option Val))
  | .vfun _ sig => .ok sig
  | .vclass _ _ sig => .ok sig
  | _ => .error (.typeError "object is not callable")

/-- `run`'s removal of an implicit receiver parameter (mlforge.py lines
189-190): drop the key `self` (signature dictionaries have unique keys). -/
def stripSelf (sig : List (String × Option Val)) : List (String × Option Val) :=
  sig.filter (fun pr => pr.fst != "self")

/-- Observable calls made by the step executor. -/
inductive Eff where
  | callFun (id : String) (args : List (String × Val))
  | instantiate (cls : String) (args : List (String × Val))
  | callFit (cls : String)

/-- `step_name in globals()`: dict membership hashes the value and compares
it with the (string) keys, so only a string can be a hit. -/
def stepGlobalsKey (st : PState) (v : Val) : Option Val :=
  match v with
  | .vstr s => st.globals.lookup s
  | _ => none

/-- The final branch of `_run_step` (mlforge.py lines 544-558): a dotted
`object.method` path descended from the host.  The source's `while` loop
recomputes its locals from the unchanged `step_name` on every iteration,
so if after one iteration the residual path still contains a dot the loop
never terminates (`nonTermination`); otherwise one iteration fetches
`parts.head` off the host and the joined remainder off that object, and
calls the result. -/
def dottedCall (st : PState) (s : String) (params : List (String × Val)) :
    Except PyErr (Val × List Eff) :=
  match splitDots s with
  | [] => .error (.valueError "step_name must be object method, of the form object.method")
  | [_] => .error (.valueError "step_name must be object method, of the form object.method")
  | obj_name :: restParts =>
    let method_name := joinDots restParts
    match st.host.getattr obj_name with
    | none => .error (.attributeError "host object has no such attribute")
    | some obj =>
      match obj.getattr method_name with
      | none => .error (.attributeError "object has no such attribute")
      | some call_name =>
        let method_call := joinDots (splitDots method_name).tail
        if (splitDots method_call).length ≥ 2 then .error .nonTermination
        else
          match call_name with
          | .vfun f _ => .ok (st.callRet f params, [.callFun f params])
          | .vclass c _ _ => .ok (.vinst c params, [.instantiate c params])
          | _ => .error (.typeError "object is not callable")

/-- `Pipeline._run_step` (mlforge.py lines 486-562).  Branches of the
source, in order: (1) `step_name in globals()` — only a string can hit a
key; the found global is called, and when it is a class the instance's
`fit()` is invoked before the instance itself is returned (no `fit`
member raises `AttributeError`); (2) a non-string with a `__module__`
attribute — functions are called, classes are instantiated and the
instance returned with no `fit` call; (3) `hasattr(self.host, step_name)`
— the host member must be a function (and a non-string `step_name`
reaching this `hasattr` raises `TypeError`); (4) the dotted-path loop. -/
def runStep (st : PState) (step_name : Val) (list_of_params : List (String × Val)) :
    Except PyErr (Val × List Eff) :=
  if step_name.hashable = false then .error (.typeError "unhashable type")
  else
    match stepGlobalsKey st step_name with
    | some g =>
      match g with
      | .vfun f _ => .ok (st.callRet f list_of_params, [.callFun f list_of_params])
      | .vclass c ms _ =>
        if (ms.lookup "fit").isSome then
          .ok (.vinst c list_of_params, [.instantiate c list_of_params, .callFit c])
        else .error (.attributeError "object has no attribute fit")
      | _ => .error (.typeError "step_name must be a class or a function")
    | none =>
      if step_name.isStr = false && step_name.hasModule then
        match step_name with
        | .vfun f _ => .ok (st.callRet f list_of_params, [.callFun f list_of_params])
        | .vclass c _ _ => .ok (.vinst c list_of_params, [.instantiate c list_of_params])
        | _ => .error (.typeError "step_name must be a class or a function")
      else
        match step_name with
        | .vstr s =>
          match st.host.getattr s with
          | some m =>
            match m with
            | .vfun f _ => .ok (st.callRet f list_of_params, [.callFun f list_of_params])
            | _ => .error (.typeError "step_name inside host object must be a function")
          | none => dottedCall st s list_of_params
        | _ => .error (.typeError "attribute name must be a string")

/-- `setattr(host, a, v)`: update the host's attribute dictionary; setting
an attribute on a non-object host raises `AttributeError`. -/
def setattrVal : Val → String → Val → Except PyErr Val
  | .vobj ms, a, v => .ok (.vobj (dictSet ms a v))
  | _, _, _ => .error (.attributeError "cannot set attribute")

/-- The publication tail of `run`'s loop body (mlforge.py lines 199-205):
when `attribute_name` is set, set that attribute on the host and — unless
the result is itself a type — store the result in `objects_` under the
same name; a non-string, non-None `attribute_name` makes `setattr` raise
`TypeError`. -/
def publish (st : PState) (attr result : Val) : Except PyErr PState :=
  match attr with
  | .vnone => .ok st
  | .vstr a =>
    match setattrVal st.host a result with
    | .error e => .error e
    | .ok h =>
      .ok { st with host := h,
                    objects := if result.isClass then st.objects else dictSet st.objects a result }
  | _ => .error (.typeError "attribute name must be a string")

/-- One iteration of `run`'s loop (mlforge.py lines 176-210): resolve the
stage's callable, read its signature, strip the receiver, build the
arguments, execute, publish.  All host/registry writes happen after every
fallible operation, so a failing stage leaves the state untouched. -/
def runStage (st : PState) (stage : Stage) : Except PyErr PState :=
  match getCallableMethod st stage.method_name stage.class_name with
  | .error e => .error e
  | .ok mc =>
    match mc with
    | none => .error (.typeError "object is not callable")
    | some m =>
      match signatureOfVal m with
      | .error e => .error e
      | .ok sig =>
        let args : Option (List (String × Val)) :=
          match stage.arguments with
          | .vdict d => some d
          | _ => none
        match buildParams st (stripSelf sig) args with
        | .error e => .error e
        | .ok params =>
          match runStep st m params with
          | .error e => .error e
          | .ok (result, _effs) => publish st stage.attribute_name result

/-- The loop of `run` over the stage list.  A raised exception aborts the
run at the failing stage; the state the prior stages left is returned
together with the error. -/
def runStages (st : PState) : List Stage → PState × Option PyErr
  | [] => (st, none)
  | stage :: rest =>
    match runStage st stage with
    | .error e => (st, some e)
    | .ok st2 => runStages st2 rest

/-- `Pipeline.run` (mlforge.py lines 155-212): assert the stage list is
non-empty, then run the stages in order. -/
def run (st : PState) (stages : List Stage) : PState × Option PyErr :=
  if stages.isEmpty then (st, some (.assertionError "Pipeline is empty. No steps to run."))
  else runStages st stages

/-- Modelled from the spec, §4.3 (Argument Builder), for the refinement in
claim C2: the per-parameter precedence as the spec words it — an explicit
argument first (taken verbatim when the value is not usable as a lookup
key, i.e. unhashable; substituted by the registered object when it
matches an Object Registry key; taken verbatim otherwise), then the host
attribute of the same name, then a same-named global, then the declared
default, else a `ValueError` naming the parameter.  Registry keys are the
published attribute names (strings), so only a string value can match
one. -/
def specResolveParam (st : PState) (explicitArgs : Option (List (String × Val)))
    (parameter : String) (defaultOrEmpty : Option Val) : Except PyErr Val :=
  match explicitArgs.bind (fun a => a.lookup parameter) with
  | some v =>
    if v.hashable = false then .ok v
    else
      match v with
      | .vstr s =>
        match st.objects.lookup s with
        | some o => .ok o
        | none => .ok (.vstr s)
      | _ => .ok v
  | none =>
    match st.host.getattr parameter with
    | some v => .ok v
    | none =>
      match st.globals.lookup parameter with
      | some v => .ok v
      | none =>
        match defaultOrEmpty with
        | some d => .ok d
        | none => .error (.valueError ("Parameter " ++ parameter ++ " not found in host object or globals"))

/-- Modelled from the spec, §4.3: fill every declared parameter, in
declaration order, by `specResolveParam`. -/
def specBuild (st : PState) (explicitArgs : Option (List (String × Val))) :
    List (String × Option Val) → Except PyErr (List (String × Val))
  | [] => .ok []
  | (p, d) :: rest =>
    match specResolveParam st explicitArgs p d with
    | .error e => .error e
    | .ok v =>
      match specBuild st explicitArgs rest with
      | .error e => .error e
      | .ok ps => .ok ((p, v) :: ps)

/-- Whether an executor trace contains a `fit()` invocation. -/
def tracksFit (effs : List Eff) : Bool :=
  effs.any fun e =>
    match e with
    | .callFit _ => true
    | _ => false

/-- Whether a result is a raised `ValueError`. -/
def isValueError {α : Type} : Except PyErr α → Bool
  | .error (.valueError _) => true
  | _ => false

/-
  Concrete sample environment, mirroring the classes of tests/test_forge.py
  and examples/sample_classes.py, used by the witness and counterexample
  theorems below.
-/

/-- A sample method member, as `SomeClass.method_name` in the tests. -/
def methodFun : Val := .vfun "SampleClass.method_name" [("self", none)]

/-- A sample `fit` member. -/
def fitFun : Val := .vfun "SampleClass.fit" [("self", none)]

/-- A sample class with members `method_name` and `fit` and a
no-argument constructor. -/
def sampleClassVal : Val := .vclass "SampleClass" [("method_name", methodFun), ("fit", fitFun)] []

/-- A sample host object with an attribute and a method. -/
def sampleHost : Val :=
  .vobj [("param1", .vstr "Hello"), ("m1", .vfun "m1" [("msg", some (.vstr "default-message"))])]

/-- A sample pipeline state over `sampleHost`. -/
def sampleState : PState :=
  initPipeline sampleHost [] [("global_method", .vfun "global_method" [])] (fun _ _ => .vnone)

/-- Claim C8: with a valid type reference as `class_ref` and a string
name, the Callable Resolver returns exactly the named member of the class
(the member when the class has it, None when it does not), with no
fall-through to any other scope — the result depends only on the class's
member table; and `run()` on an empty stage list fails with an assertion
error. -/
theorem resolver_class_scope_and_empty_run :
    (∀ (st : PState) (s c : String) (ms : List (String × Val)) (sig : List (String × Option Val)),
       getCallableMethod st (.vstr s) (.vclass c ms sig) = .ok (ms.lookup s)) ∧
    (∀ st : PState,
       run st [] = (st, some (.assertionError "Pipeline is empty. No steps to run."))) := by
  constructor
  · intro st s c ms sig
    simp [getCallableMethod, methodNameOk]
  · intro st
    simp [run]

/-- Claim C9: when `class_name` is given (not None) but is not a type
reference, the Callable Resolver raises `AttributeError` saying the
parameter must be a class — the engine's realisation of the spec's
`InvalidArgument` error — for every method name in the resolver's
asserted domain (a string or None). -/
theorem resolver_non_class_rejected (st : PState) (mn cn : Val)
    (hm : methodNameOk mn = true) (hc : cn.isClass = false) (hn : cn ≠ .vnone) :
    getCallableMethod st mn cn = .error (.attributeError "Parameter must be a class") := by
  cases cn <;> simp_all [getCallableMethod, Val.isClass]

/-- Witness for C9: a concrete non-class `class_name` (the int 5) is
rejected both with a None method name and with a string method name. -/
theorem resolver_non_class_rejected_witness :
    getCallableMethod sampleState .vnone (.vint 5) = .error (.attributeError "Parameter must be a class") ∧
    getCallableMethod sampleState (.vstr "method_name") (.vint 5) = .error (.attributeError "Parameter must be a class") :=
  ⟨resolver_non_class_rejected sampleState .vnone (.vint 5) rfl rfl
      (fun h => Val.noConfusion h),
   resolver_non_class_rejected sampleState (.vstr "method_name") (.vint 5) rfl rfl
      (fun h => Val.noConfusion h)⟩

/-- Claim C10: calling the Callable Resolver with `method_name = None` and
`class_name = None` — a combination its precondition assertion permits —
raises `TypeError` (from `hasattr(host, None)`) instead of returning
None; the documented return-None outcome does hold when `method_name` is
a string that matches nothing (and contains no dot). -/
theorem resolver_none_none_type_error :
    (∀ st : PState,
       getCallableMethod st .vnone .vnone = .error (.typeError "attribute name must be a string")) ∧
    (∀ (st : PState) (s : String),
       st.host.getattr s = none → st.selfMembers.lookup s = none →
       st.globals.lookup s = none → splitDots s = [s] →
       getCallableMethod st (.vstr s) .vnone = .ok none) := by
  constructor
  · intro st
    simp [getCallableMethod, methodNameOk]
  · intro st s h1 h2 h3 h4
    simp [getCallableMethod, methodNameOk, resolveUnscoped, h1, h2, h3, h4]

/-- Witness for C10: in the concrete sample state the name `missing`
matches nothing and resolves to None, while the None/None call raises
`TypeError`. -/
theorem resolver_none_none_type_error_witness :
    getCallableMethod sampleState .vnone .vnone = .error (.typeError "attribute name must be a string") ∧
    (sampleState.host.getattr "missing" = none ∧ splitDots "missing" = ["missing"]) ∧
    getCallableMethod sampleState (.vstr "missing") .vnone = .ok none :=
  ⟨resolver_none_none_type_error.1 sampleState,
   ⟨rfl, rfl⟩,
   resolver_none_none_type_error.2 sampleState "missing" rfl rfl rfl rfl⟩

/-- Counterexample for C5: a tuple whose length is not 1-4 does NOT raise
`ValueError`; the source's `if/elif` chain has no final `else`, so the
empty tuple and a 5-tuple fall through and parsing returns four unset
fields. -/
theorem parse_bad_length_counterexample :
    parseStep sampleState [] = .ok (.vnone, .vnone, .vnone, .vnone) ∧
    isValueError (parseStep sampleState []) = false ∧
    parseStep sampleState [.vstr "a", .vstr "b", .vstr "c", .vstr "d", .vstr "e"]
      = .ok (.vnone, .vnone, .vnone, .vnone) :=
  ⟨rfl, rfl, rfl⟩

/-- Claim C5 as amended: for every tuple of length other than 1, 2, 3 or 4
(the empty tuple and tuples of 5 or more elements), parsing raises no
error at all and returns the quadruple with all four fields unset. -/
theorem parse_bad_length (st : PState) (l : List Val)
    (h : l.length = 0 ∨ 5 ≤ l.length) :
    parseStep st l = .ok (.vnone, .vnone, .vnone, .vnone) := by
  match l, h with
  | [], _ => rfl
  | _ :: _ :: _ :: _ :: _ :: _, _ => rfl
  | [_], h | [_, _], h | [_, _, _], h | [_, _, _, _], h =>
    simp at h

/-- Witness for C5 as amended: instantiated at the empty tuple and at a
concrete 6-tuple. -/
theorem parse_bad_length_witness :
    parseStep sampleState [] = .ok (.vnone, .vnone, .vnone, .vnone) ∧
    parseStep sampleState [.vint 1, .vint 2, .vint 3, .vint 4, .vint 5, .vint 6]
      = .ok (.vnone, .vnone, .vnone, .vnone) :=
  ⟨parse_bad_length sampleState [] (Or.inl rfl),
   parse_bad_length sampleState [.vint 1, .vint 2, .vint 3, .vint 4, .vint 5, .vint 6]
     (Or.inr (by simp))⟩

/-- Claim C1: for every 2-element step specification — (string, type):
method/class when the class-scoped probe finds the name, attribute/class
when it does not; (string, mapping): method/arguments; (string, string):
attribute/method; and every other 2-element shape raises `ValueError`. -/
theorem parse_two_element_shapes (st : PState) :
    (∀ (s c : String) ms sig (f : Val),
       getCallableMethod st (.vstr s) (.vclass c ms sig) = .ok (some f) →
       parseStep st [.vstr s, .vclass c ms sig] = .ok (.vnone, .vstr s, .vclass c ms sig, .vnone)) ∧
    (∀ (s c : String) ms sig,
       getCallableMethod st (.vstr s) (.vclass c ms sig) = .ok none →
       parseStep st [.vstr s, .vclass c ms sig] = .ok (.vstr s, .vnone, .vclass c ms sig, .vnone)) ∧
    (∀ (s : String) (d : List (String × Val)),
       parseStep st [.vstr s, .vdict d] = .ok (.vnone, .vstr s, .vnone, .vdict d)) ∧
    (∀ a b : String,
       parseStep st [.vstr a, .vstr b] = .ok (.vstr a, .vstr b, .vnone, .vnone)) ∧
    (∀ e0 e1 : Val,
       (e0.isStr && (e1.isClass || e1.isDict || e1.isStr)) = false →
       isValueError (parseStep st [e0, e1]) = true) := by
  refine ⟨?_, ?_, ?_, ?_, ?_⟩
  · intro s c ms sig f h
    simp [parseStep, Val.isClass, h]
  · intro s c ms sig h
    simp [parseStep, Val.isClass, h]
  · intro s d
    simp [parseStep, Val.isClass, Val.isDict, Val.isStr]
  · intro a b
    simp [parseStep, Val.isClass, Val.isDict, Val.isStr]
  · intro e0 e1 h
    cases e0 <;> cases e1 <;>
      simp_all [parseStep, isValueError, Val.isStr, Val.isClass, Val.isDict]

/-- Witness for C1: the four shapes and a rejected shape, instantiated on
the sample class (which has member `method_name` but no member
`attribute_name`). -/
theorem parse_two_element_shapes_witness :
    parseStep sampleState [.vstr "method_name", sampleClassVal]
      = .ok (.vnone, .vstr "method_name", sampleClassVal, .vnone) ∧
    parseStep sampleState [.vstr "attribute_name", sampleClassVal]
      = .ok (.vstr "attribute_name", .vnone, sampleClassVal, .vnone) ∧
    parseStep sampleState [.vstr "method_name", .vdict [("param", .vstr "value")]]
      = .ok (.vnone, .vstr "method_name", .vnone, .vdict [("param", .vstr "value")]) ∧
    parseStep sampleState [.vstr "attribute_name", .vstr "method_name"]
      = .ok (.vstr "attribute_name", .vstr "method_name", .vnone, .vnone) ∧
    isValueError (parseStep sampleState [.vint 1, .vint 2]) = true :=
  ⟨(parse_two_element_shapes sampleState).1 "method_name" "SampleClass"
      [("method_name", methodFun), ("fit", fitFun)] [] methodFun rfl,
   (parse_two_element_shapes sampleState).2.1 "attribute_name" "SampleClass"
      [("method_name", methodFun), ("fit", fitFun)] [] rfl,
   (parse_two_element_shapes sampleState).2.2.1 "method_name" [("param", .vstr "value")],
   (parse_two_element_shapes sampleState).2.2.2.1 "attribute_name" "method_name",
   (parse_two_element_shapes sampleState).2.2.2.2 (.vint 1) (.vint 2) rfl⟩

/-- The host object of the C3 counterexample: attribute `a` holds an
object that even possesses a member literally named `b.c` (in Python such
a member is creatable with `setattr`). -/
def c3Host : Val := .vobj [("a", .vobj [("b.c", .vfun "bc" [])])]

/-- The pipeline state of the C3 counterexample: nothing but the host
attribute `a` is in scope. -/
def c3State : PState := initPipeline c3Host [] [] (fun _ _ => .vnone)

/-- Counterexample for C3: for the name `a.b.c` — which contains a dot, is
found in no earlier scope, and whose part before the dot (`a`) IS a host
attribute holding the member named by the rest — the resolver does not
return that member: the source unpacks `split('.')` into exactly two
variables, so the 3-part split raises `ValueError` even though the claim
prescribes returning the member (its ValueError is reserved for an absent
host attribute). -/
theorem resolver_search_order_counterexample :
    c3State.host.getattr "a" = some (.vobj [("b.c", .vfun "bc" [])]) ∧
    (Val.vobj [("b.c", .vfun "bc" [])]).getattr "b.c" = some (.vfun "bc" []) ∧
    c3State.selfMembers = [] ∧ c3State.globals = [] ∧
    getCallableMethod c3State (.vstr "a.b.c") .vnone
      = .error (.valueError "too many values to unpack - expected 2") :=
  ⟨rfl, rfl, rfl, rfl, rfl⟩

/-- Claim C3 as amended: for a name resolved without a class reference the
search order is host members, then the pipeline object's own members,
then the globals — a host member wins over a same-named global — then,
for a name with EXACTLY one dot, the member of the host attribute named
by the part before the dot (`ValueError` when that attribute is absent
from the host); a name with two or more dots raises `ValueError` from the
two-way unpacking of the split even when the host attribute exists; and
None is returned when a dot-free name matches nothing. -/
theorem resolver_search_order (st : PState) (s : String) :
    (∀ v, st.host.getattr s = some v →
       getCallableMethod st (.vstr s) .vnone = .ok (some v)) ∧
    (∀ v, st.host.getattr s = none → st.selfMembers.lookup s = some v →
       getCallableMethod st (.vstr s) .vnone = .ok (some v)) ∧
    (∀ v, st.host.getattr s = none → st.selfMembers.lookup s = none →
       st.globals.lookup s = some v →
       getCallableMethod st (.vstr s) .vnone = .ok (some v)) ∧
    (∀ a b obj m, st.host.getattr s = none → st.selfMembers.lookup s = none →
       st.globals.lookup s = none → splitDots s = [a, b] →
       st.host.getattr a = some obj → obj.getattr b = some m →
       getCallableMethod st (.vstr s) .vnone = .ok (some m)) ∧
    (∀ a b, st.host.getattr s = none → st.selfMembers.lookup s = none →
       st.globals.lookup s = none → splitDots s = [a, b] →
       st.host.getattr a = none →
       getCallableMethod st (.vstr s) .vnone = .error (.valueError "Object not found in host object")) ∧
    (∀ a b c rest, st.host.getattr s = none → st.selfMembers.lookup s = none →
       st.globals.lookup s = none → splitDots s = a :: b :: c :: rest →
       getCallableMethod st (.vstr s) .vnone
         = .error (.valueError "too many values to unpack - expected 2")) ∧
    (st.host.getattr s = none → st.selfMembers.lookup s = none →
       st.globals.lookup s = none → splitDots s = [s] →
       getCallableMethod st (.vstr s) .vnone = .ok none) := by
  refine ⟨?_, ?_, ?_, ?_, ?_, ?_, ?_⟩
  · intro v h
    simp [getCallableMethod, methodNameOk, resolveUnscoped, h]
  · intro v h1 h2
    simp [getCallableMethod, methodNameOk, resolveUnscoped, h1, h2]
  · intro v h1 h2 h3
    simp [getCallableMethod, methodNameOk, resolveUnscoped, h1, h2, h3]
  · intro a b obj m h1 h2 h3 h4 h5 h6
    simp [getCallableMethod, methodNameOk, resolveUnscoped, h1, h2, h3, h4, h5, h6]
  · intro a b h1 h2 h3 h4 h5
    simp [getCallableMethod, methodNameOk, resolveUnscoped, h1, h2, h3, h4, h5]
  · intro a b c rest h1 h2 h3 h4
    simp [getCallableMethod, methodNameOk, resolveUnscoped, h1, h2, h3, h4]
  · intro h1 h2 h3 h4
    simp [getCallableMethod, methodNameOk, resolveUnscoped, h1, h2, h3, h4]

/-- A state for the C3 witness: the host member `m1` shadows a same-named
global, and `obj.method` resolves through the host attribute `obj`. -/
def c3WitnessState : PState :=
  { host := .vobj [("m1", .vfun "host.m1" []), ("obj", .vobj [("method", .vfun "obj.method" [])])],
    selfMembers := [("show", .vfun "Pipeline.show" [])],
    globals := [("m1", .vfun "global.m1" []), ("g", .vfun "global.g" [])],
    objects := [],
    callRet := fun _ _ => .vnone }

/-- Witness for C3 as amended: every clause instantiated concretely — the
host member `m1` wins over the same-named global, the pipeline member and
the global are found in order, `obj.method` descends through the host
attribute, a missing root raises `ValueError`, a two-dot name raises the
unpack `ValueError`, and an unmatched dot-free name yields None. -/
theorem resolver_search_order_witness :
    getCallableMethod c3WitnessState (.vstr "m1") .vnone = .ok (some (.vfun "host.m1" [])) ∧
    getCallableMethod c3WitnessState (.vstr "show") .vnone = .ok (some (.vfun "Pipeline.show" [])) ∧
    getCallableMethod c3WitnessState (.vstr "g") .vnone = .ok (some (.vfun "global.g" [])) ∧
    getCallableMethod c3WitnessState (.vstr "obj.method") .vnone = .ok (some (.vfun "obj.method" [])) ∧
    getCallableMethod c3WitnessState (.vstr "gone.method") .vnone
      = .error (.valueError "Object not found in host object") ∧
    getCallableMethod c3WitnessState (.vstr "obj.x.y") .vnone
      = .error (.valueError "too many values to unpack - expected 2") ∧
    getCallableMethod c3WitnessState (.vstr "missing") .vnone = .ok none :=
  ⟨(resolver_search_order c3WitnessState "m1").1 _ rfl,
   (resolver_search_order c3WitnessState "show").2.1 _ rfl rfl,
   (resolver_search_order c3WitnessState "g").2.2.1 _ rfl rfl rfl,
   (resolver_search_order c3WitnessState "obj.method").2.2.2.1 "obj" "method" _ _
     rfl rfl rfl rfl rfl rfl,
   (resolver_search_order c3WitnessState "gone.method").2.2.2.2.1 "gone" "method"
     rfl rfl rfl rfl rfl,
   (resolver_search_order c3WitnessState "obj.x.y").2.2.2.2.2.1 "obj" "x" "y" []
     rfl rfl rfl rfl,
   (resolver_search_order c3WitnessState "missing").2.2.2.2.2.2 rfl rfl rfl rfl⟩

/-- The per-parameter body of `_build_params` agrees with the spec's
precedence list. -/
theorem resolveParam_eq_spec (st : PState) (a : Option (List (String × Val)))
    (p : String) (d : Option Val) :
    resolveParam st a p d = specResolveParam st a p d := by
  cases a with
  | none => rfl
  | some args =>
    cases h : args.lookup p <;> simp [resolveParam, specResolveParam, h]

/-- Claim C2: the Argument Builder fills each declared parameter by the
spec's precedence — explicit argument (verbatim when unhashable; the
registered object when the value matches a registry key; verbatim
otherwise), then host attribute, then global, then declared default, else
`ValueError` naming the parameter — and in particular an explicit
registry-known argument wins over a same-named host attribute. -/
theorem build_params_precedence :
    (∀ (st : PState) (ps : List (String × Option Val)) (args : Option (List (String × Val))),
       buildParams st ps args = specBuild st args ps) ∧
    (∀ (st : PState) (args : List (String × Val)) (p : String) (d : Option Val)
       (s : String) (o h : Val),
       args.lookup p = some (.vstr s) → st.objects.lookup s = some o →
       st.host.getattr p = some h →
       buildParams st [(p, d)] (some args) = .ok [(p, o)]) ∧
    (∀ (st : PState) (p : String) (rest : List (String × Option Val))
       (args : Option (List (String × Val))),
       args.bind (fun a => a.lookup p) = none → st.host.getattr p = none →
       st.globals.lookup p = none →
       buildParams st ((p, none) :: rest) args
         = .error (.valueError ("Parameter " ++ p ++ " not found in host object or globals"))) := by
  refine ⟨?_, ?_, ?_⟩
  · intro st ps args
    induction ps with
    | nil => rfl
    | cons hd tl ih =>
      obtain ⟨p, d⟩ := hd
      simp only [buildParams, specBuild, resolveParam_eq_spec, ih]
  · intro st args p d s o h h1 h2 h3
    simp [buildParams, resolveParam, h1, h2, Val.hashable]
  · intro st p rest args h1 h2 h3
    cases args with
    | none => simp [buildParams, resolveParam, h2, h3]
    | some a =>
      replace h1 : a.lookup p = none := h1
      simp [buildParams, resolveParam, h1, h2, h3]

/-- A state for the C2 witness: `myobject` was published to the registry
by an earlier stage, while the host also has an attribute `param1`. -/
def c2State : PState :=
  { host := .vobj [("param1", .vstr "host-value")],
    selfMembers := [],
    globals := [("gparam", .vint 7)],
    objects := [("host", .vobj [("param1", .vstr "host-value")]),
                ("myobject", .vinst "SampleClass" [])],
    callRet := fun _ _ => .vnone }

/-- Witness for C2: the registry-known explicit argument `myobject` wins
over the host attribute `param1`, and a parameter with no source at all
raises the `ValueError` naming it. -/
theorem build_params_precedence_witness :
    buildParams c2State [("param1", none)] (some [("param1", .vstr "myobject")])
      = .ok [("param1", .vinst "SampleClass" [])] ∧
    buildParams c2State [("missing", none)] none
      = .error (.valueError "Parameter missing not found in host object or globals") :=
  ⟨build_params_precedence.2.1 c2State [("param1", .vstr "myobject")] "param1" none
      "myobject" (.vinst "SampleClass" []) (.vstr "host-value") rfl rfl rfl,
   build_params_precedence.2.2 c2State "missing" [] none rfl rfl rfl⟩

/-- The class of the C4 counterexample: it has a `fit` member. -/
def c4Class : Val := .vclass "SampleClass" [("fit", fitFun)] []

/-- The state of the C4 counterexample.  The class even sits in the module
globals under its own name: `step_name in globals()` still misses,
because dict membership compares the class value with the string keys. -/
def c4State : PState :=
  { host := .vobj [], selfMembers := [], globals := [("SampleClass", c4Class)],
    objects := [], callRet := fun _ _ => .vnone }

/-- Counterexample for C4: a step whose resolved callable IS a type
reference (the normal class-as-step case) is instantiated and the
instance returned, but `fit()` is never invoked — the `obj.fit()` call
lives only in the `step_name in globals()` branch, which a class value
cannot enter. -/
theorem class_step_counterexample :
    runStep c4State c4Class [] = .ok (.vinst "SampleClass" [], [.instantiate "SampleClass" []]) ∧
    tracksFit [.instantiate "SampleClass" []] = false :=
  ⟨rfl, rfl⟩

/-- Claim C4 as amended: the Step Executor invokes `fit()` only when the
resolved callable is a string that is a key of the executor module's
globals whose value is a type with a `fit` member — then it instantiates,
calls `fit()`, and returns the instance; a step whose resolved callable
is a type reference value itself is instantiated with the built arguments
and the instance (not any method result) is returned, without any `fit()`
call. -/
theorem class_step_execution :
    (∀ (st : PState) (s c : String) (ms : List (String × Val)) (csig : List (String × Option Val))
       (params : List (String × Val)) (fitv : Val),
       st.globals.lookup s = some (.vclass c ms csig) → ms.lookup "fit" = some fitv →
       runStep st (.vstr s) params
         = .ok (.vinst c params, [.instantiate c params, .callFit c])) ∧
    (∀ (st : PState) (c : String) (ms : List (String × Val)) (csig : List (String × Option Val))
       (params : List (String × Val)),
       runStep st (.vclass c ms csig) params
         = .ok (.vinst c params, [.instantiate c params])) := by
  constructor
  · intro st s c ms csig params fitv h1 h2
    simp [runStep, Val.hashable, stepGlobalsKey, h1, h2]
  · intro st c ms csig params
    simp [runStep, Val.hashable, stepGlobalsKey, Val.isStr, Val.hasModule]

/-- Witness for C4 as amended: through the string `"SampleClass"` (a
globals key) the executor instantiates and calls `fit()`; through the
class value it instantiates with no `fit()` call. -/
theorem class_step_execution_witness :
    runStep c4State (.vstr "SampleClass") []
      = .ok (.vinst "SampleClass" [], [.instantiate "SampleClass" [], .callFit "SampleClass"]) ∧
    runStep c4State c4Class [] = .ok (.vinst "SampleClass" [], [.instantiate "SampleClass" []]) :=
  ⟨class_step_execution.1 c4State "SampleClass" "SampleClass" [("fit", fitFun)] [] [] fitFun rfl rfl,
   class_step_execution.2 c4State "SampleClass" [("fit", fitFun)] [] []⟩

/-- The host of the C6/C7 scenarios: two methods `m1` and `m2`. -/
def c6Host : Val := .vobj [("m1", .vfun "m1" []), ("m2", .vfun "m2" [])]

/-- A freshly initialised pipeline state over `c6Host`; calling `m1`
returns 1, anything else returns 2. -/
def c6State : PState := initPipeline c6Host [] [] (fun f _ => if f = "m1" then .vint 1 else .vint 2)

/-- First stage: publish the result of `m1` as `x`. -/
def c6Stage1 : Stage := ⟨.vstr "x", .vstr "m1", .vnone, .vnone⟩

/-- Second stage: publish the result of `m2` under the SAME name `x`. -/
def c6Stage2 : Stage := ⟨.vstr "x", .vstr "m2", .vnone, .vnone⟩

/-- Counterexample for C6: two stages publishing under the same name.
After the first stage the registry holds `x ↦ 1`; after the second stage
the registry has NOT gained an entry (still 2 entries, not 3) and the
first `x` entry has been overwritten by `x ↦ 2` — contradicting "gains
exactly one entry per publishing stage" and "no entry is ever
overwritten". -/
theorem registry_overwrite_counterexample :
    (run c6State [c6Stage1]).1.objects = [("host", c6Host), ("x", .vint 1)] ∧
    (run c6State [c6Stage1, c6Stage2]).2 = none ∧
    (run c6State [c6Stage1, c6Stage2]).1.objects = [("host", c6Host), ("x", .vint 2)] ∧
    (run c6State [c6Stage1, c6Stage2]).1.objects.length = 2 :=
  ⟨rfl, rfl, rfl, rfl⟩

/-- Claim C6 as amended: the registry starts pre-registered with the host
under the reserved key `host`; a stage publishes nothing when
`attribute_name` is unset, and otherwise sets the host attribute to the
result and — unless the result is a type — stores the result in the
registry under that name by dict assignment, which appends a NEW entry
when the name is fresh but OVERWRITES the existing entry when a stage
reuses a published name (entries are never removed, but they can be
replaced). -/
theorem registry_append_or_overwrite :
    (∀ (host : Val) (sm g : List (String × Val)) (cr : String → List (String × Val) → Val),
       (initPipeline host sm g cr).objects = [("host", host)]) ∧
    (∀ (st : PState) (result : Val), publish st .vnone result = .ok st) ∧
    (∀ (st : PState) (a : String) (result : Val) (ms : List (String × Val)),
       st.host = .vobj ms → result.isClass = false →
       publish st (.vstr a) result
         = .ok { st with host := .vobj (dictSet ms a result),
                         objects := dictSet st.objects a result }) ∧
    (∀ (st : PState) (a : String) (result : Val) (ms : List (String × Val)),
       st.host = .vobj ms → result.isClass = true →
       publish st (.vstr a) result = .ok { st with host := .vobj (dictSet ms a result) }) ∧
    (∀ (xs : List (String × Val)) (k : String) (v : Val),
       (dictSet xs k v).lookup k = some v) ∧
    (∀ (xs : List (String × Val)) (k : String) (v : Val),
       xs.lookup k = none → (dictSet xs k v).length = xs.length + 1) ∧
    (∀ (xs : List (String × Val)) (k : String) (v : Val),
       (xs.lookup k).isSome = true → (dictSet xs k v).length = xs.length) := by
  refine ⟨?_, ?_, ?_, ?_, ?_, ?_, ?_⟩
  · intro host sm g cr
    rfl
  · intro st result
    rfl
  · intro st a result ms hh hc
    simp [publish, setattrVal, hh, hc]
  · intro st a result ms hh hc
    simp [publish, setattrVal, hh, hc]
  · intro xs k v
    induction xs with
    | nil => simp [dictSet, List.lookup]
    | cons hd tl ih =>
      obtain ⟨k0, v0⟩ := hd
      by_cases h : k0 = k
      · simp [dictSet, h, List.lookup]
      · have hb : (k == k0) = false := by simp [Ne.symm h]
        simp [dictSet, h, List.lookup, hb, ih]
  · intro xs k v h
    induction xs with
    | nil => simp [dictSet]
    | cons hd tl ih =>
      obtain ⟨k0, v0⟩ := hd
      by_cases hk : k0 = k
      · simp [List.lookup, hk] at h
      · have hb : (k == k0) = false := by simp [Ne.symm hk]
        simp only [List.lookup, hb] at h
        simp [dictSet, hk, ih h]
  · intro xs k v h
    induction xs with
    | nil => simp at h
    | cons hd tl ih =>
      obtain ⟨k0, v0⟩ := hd
      by_cases hk : k0 = k
      · simp [dictSet, hk]
      · have hb : (k == k0) = false := by simp [Ne.symm hk]
        simp only [List.lookup, hb] at h
        simp [dictSet, hk, ih h]

/-- Witness for C6 as amended: publishing `x ↦ 1` on the fresh state
updates host and registry; `dictSet` grows the fresh registry by one and
leaves the length unchanged on the reused name. -/
theorem registry_append_or_overwrite_witness :
    publish c6State (.vstr "x") (.vint 1)
      = .ok { c6State with
                host := .vobj (dictSet [("m1", .vfun "m1" []), ("m2", .vfun "m2" [])] "x" (.vint 1)),
                objects := dictSet c6State.objects "x" (.vint 1) } ∧
    (dictSet [("host", c6Host)] "x" (.vint 1)).length = 2 ∧
    (dictSet [("host", c6Host), ("x", .vint 1)] "x" (.vint 2)).length = 2 :=
  ⟨registry_append_or_overwrite.2.2.1 c6State "x" (.vint 1)
      [("m1", .vfun "m1" []), ("m2", .vfun "m2" [])] rfl rfl,
   registry_append_or_overwrite.2.2.2.2.2.1 [("host", c6Host)] "x" (.vint 1) rfl,
   registry_append_or_overwrite.2.2.2.2.2.2 [("host", c6Host), ("x", .vint 1)] "x" (.vint 2) rfl⟩

/-- Claim C7: when a stage fails, the run stops at that stage with the
error: the result is the state the prior stages left (all their host and
registry writes in place, no rollback), and it does not depend on the
stages after the failing one. -/
theorem run_aborts_at_failing_stage (st st1 : PState) (pre post : List Stage)
    (f : Stage) (e : PyErr)
    (h1 : runStages st pre = (st1, none)) (h2 : runStage st1 f = .error e) :
    run st (pre ++ f :: post) = (st1, some e) := by
  have main : ∀ (pr : List Stage) (st : PState), runStages st pr = (st1, none) →
      runStages st (pr ++ f :: post) = (st1, some e) := by
    intro pr
    induction pr with
    | nil =>
      intro st h
      have hst : st = st1 := congrArg Prod.fst h
      subst hst
      simp [runStages, h2]
    | cons p ps ih =>
      intro st h
      simp only [List.cons_append, runStages] at h ⊢
      revert h
      cases hp : runStage st p with
      | error er => intro h; simp at h
      | ok st2 => intro h; exact ih st2 h
  have hne : (pre ++ f :: post).isEmpty = false := by
    cases pre <;> rfl
  simp [run, hne, main pre st h1]

/-- A stage whose method resolves nowhere: running it raises `TypeError`
(the resolver returns None and `inspect.signature(None)` fails). -/
def c7FailStage : Stage := ⟨.vnone, .vstr "nope", .vnone, .vnone⟩

/-- The state after the first (successful) stage of the C7 scenario. -/
def c7Mid : PState := (runStages c6State [c6Stage1]).1

/-- Witness for C7: with one successful stage, then a failing stage, then
one more stage, the run returns the post-first-stage state together with
the failing stage's error — the third stage never runs. -/
theorem run_aborts_at_failing_stage_witness :
    run c6State ([c6Stage1] ++ c7FailStage :: [c6Stage2])
      = (c7Mid, some (.typeError "object is not callable")) :=
  run_aborts_at_failing_stage c6State c7Mid [c6Stage1] [c6Stage2] c7FailStage
    (.typeError "object is not callable") rfl rfl

end Forge
